import Mathlib

set_option maxRecDepth 8192
set_option maxHeartbeats 1000000

/-!
Shallow embedding of the WAMR ESP32 Arduino wrapper (src/src/WAMR.cpp and the
WAMR.h header): the runtime lifecycle manager (WamrRuntime), the module
lifecycle controller (WamrModule) and the dual-path execution bridge
(callFunction / callFunctionRaw / callFunctionInternal).

The opaque WAMR engine (wasm_runtime_load, wasm_runtime_instantiate,
wasm_runtime_create_exec_env, wasm_runtime_lookup_function,
wasm_runtime_call_wasm, wasm_runtime_get_exception), the memory allocators
(heap_caps_malloc / malloc) and the pthread layer are external collaborators;
they are modelled as oracles (structures of functions) so every theorem is
quantified over all possible engine / allocator / pthread behaviours.

Opaque handles (wasm_module_t, wasm_module_inst_t, wasm_exec_env_t,
wasm_function_inst_t, allocation pointers) are modelled as `Nat` ids, with
`Option Nat` for nullable handle fields.  The bounded `char error_buf[128]`
written through snprintf is modelled as a `String` truncated to 127
characters; the empty string models a buffer whose first byte is NUL.
Resource actions performed against the engine/allocator are recorded in an
event trace so that lifetime properties (contexts destroyed before return,
compiled unit released, no allocation attempted) are statable.
-/

namespace WamrEsp32

/-- `snprintf(error_buf, sizeof(error_buf), ...)` on `char error_buf[128]`:
the stored string is truncated to at most 127 characters. -/
def snprintfBuf (s : String) : String := s.take 127

/-- The single-quote character (ASCII 39) that the format string
`Function %s not found` places around the function name in WAMR.cpp. -/
def sq : String := String.singleton (Char.ofNat 39)

/-- Observable resource actions against the engine / allocator, recorded in
order of occurrence during one operation. -/
inductive Event where
  | allocPsram (size : Nat)
  | allocInternal (size : Nat)
  | engineInit
  | freeBuf
  | engineLoad
  | deinstantiate (h : Nat)
  | unloadUnit (h : Nat)
  | createCtx (h : Nat)
  | destroyCtx (h : Nat)
  | lookupFn (name : String)
  | engineCall (fn : Nat)
  deriving DecidableEq

-- ===========================================================================
-- WamrRuntime (process-wide singleton; static members of the C++ class)
-- ===========================================================================

/-- The static state of `WamrRuntime`: `initialized`, `global_heap_buf`
(nullable pointer, modelled as an allocation id) and `error_msg`
(nullable `const char *`). -/
structure RuntimeState where
  initialized : Bool
  global_heap_buf : Option Nat
  error_msg : Option String
  deriving DecidableEq

/-- `WAMR_MIN_HEAP_SIZE` from WAMR.h: `(16 * 1024)`. -/
def WAMR_MIN_HEAP_SIZE : Nat := 16 * 1024

/-- Oracle for the memory sources and the engine init call used by
`WamrRuntime::begin`. -/
structure MemEnv where
  psramAlloc : Nat → Option Nat
  internalAlloc : Nat → Option Nat
  engineInitOk : Bool

/-- Result of `WamrRuntime::begin`: new static state, returned Bool, and the
trace of resource actions performed. -/
structure BeginResult where
  state : RuntimeState
  ok : Bool
  trace : List Event
  deriving DecidableEq

namespace WamrRuntime

/-- Static initialization of the `WamrRuntime` members
(`initialized = false`, `global_heap_buf = nullptr`, `error_msg = nullptr`). -/
def initial : RuntimeState :=
  { initialized := false, global_heap_buf := none, error_msg := none }

/-- Shared tail of `WamrRuntime::begin` after a heap buffer was obtained:
`wasm_runtime_full_init`, releasing the buffer again when it fails. -/
def finishInit (env : MemEnv) (r : RuntimeState) (buf : Nat) (t : List Event) :
    BeginResult :=
  if env.engineInitOk then
    { state := { r with global_heap_buf := some buf, initialized := true },
      ok := true, trace := t ++ [Event.engineInit] }
  else
    { state :=
        { r with
            global_heap_buf := none
            error_msg := some "Failed to initialize WAMR runtime" },
      ok := false, trace := t ++ [Event.engineInit, Event.freeBuf] }

/-- `WamrRuntime::begin(heap_pool_size)`. -/
def begin (env : MemEnv) (r : RuntimeState) (heap_pool_size : Nat) : BeginResult :=
  if r.initialized then
    { state := r, ok := true, trace := [] }
  else if heap_pool_size < WAMR_MIN_HEAP_SIZE then
    { state := { r with error_msg := some "Heap pool size too small (min 16KB)" },
      ok := false, trace := [] }
  else
    match env.psramAlloc heap_pool_size with
    | some buf => finishInit env r buf [Event.allocPsram heap_pool_size]
    | none =>
      match env.internalAlloc heap_pool_size with
      | some buf =>
        finishInit env r buf
          [Event.allocPsram heap_pool_size, Event.allocInternal heap_pool_size]
      | none =>
        { state := { r with error_msg := some "Failed to allocate global heap" },
          ok := false,
          trace := [Event.allocPsram heap_pool_size,
                    Event.allocInternal heap_pool_size] }

/-- `WamrRuntime::isInitialized()`. -/
def isInitialized (r : RuntimeState) : Bool := r.initialized

/-- `WamrRuntime::getError()`. -/
def getError (r : RuntimeState) : Option String := r.error_msg

end WamrRuntime

-- ===========================================================================
-- WamrModule (module lifecycle controller)
-- ===========================================================================

/-- The per-instance fields of `WamrModule`: `module`, `module_inst`,
`stack_size_for_exec_env`, `last_result`, `loaded`, `error_buf`. -/
structure ModuleState where
  module : Option Nat
  module_inst : Option Nat
  stack_size_for_exec_env : Nat
  last_result : Nat
  loaded : Bool
  error_buf : String
  deriving DecidableEq

/-- Oracle for the opaque WAMR engine calls made by `WamrModule`.  Field
names follow the engine entry points invoked in WAMR.cpp.  Fallible calls
that report diagnostic text through the caller's buffer return
`Except String`. -/
structure Engine where
  wasm_runtime_load : List Nat → Nat → Except String Nat
  wasm_runtime_instantiate : Nat → Nat → Nat → Except String Nat
  wasm_runtime_create_exec_env : Nat → Nat → Option Nat
  wasm_runtime_lookup_function : Nat → String → Option Nat
  wasm_runtime_call_wasm : Nat → Nat → Nat → List Nat → Bool × List Nat
  wasm_runtime_get_exception : Nat → Option String

/-- Oracle for the pthread layer used by the safe path
`WamrModule::callFunction`. -/
structure PthreadEnv where
  attrInitOk : Bool
  setStackSizeOk : Bool
  createOk : Bool

/-- Result of `WamrModule::load`. -/
structure LoadResult where
  state : ModuleState
  ok : Bool
  trace : List Event

/-- Result of a call-path operation: new controller state, returned Bool,
resource-action trace, and the caller's argv buffer after the call
(`none` models a null argv pointer). -/
structure CallResult where
  state : ModuleState
  ok : Bool
  trace : List Event
  argvOut : Option (List Nat)

namespace WamrModule

/-- `WamrModule::WamrModule()`: all handles null, sizes zero, `loaded`
false, `error_buf` zeroed. -/
def construct : ModuleState :=
  { module := none, module_inst := none, stack_size_for_exec_env := 0,
    last_result := 0, loaded := false, error_buf := "" }

/-- `WamrModule::unload()`: deinstantiate then unload (each only if
present), clear `loaded`, reset the stored stack size, zero `error_buf`.
`last_result` is not touched. -/
def unload (s : ModuleState) : ModuleState :=
  { module := none, module_inst := none, stack_size_for_exec_env := 0,
    last_result := s.last_result, loaded := false, error_buf := "" }

/-- The engine tear-down actions `WamrModule::unload()` performs:
`wasm_runtime_deinstantiate` on `module_inst` if present, then
`wasm_runtime_unload` on `module` if present. -/
def unloadTrace (s : ModuleState) : List Event :=
  (match s.module_inst with
   | some i => [Event.deinstantiate i]
   | none => []) ++
  (match s.module with
   | some m => [Event.unloadUnit m]
   | none => [])

/-- `WamrModule::load(wasm_bytes, size, stack_size, heap_size)`. -/
def load (eng : Engine) (rt : RuntimeState) (s : ModuleState)
    (wasm_bytes : List Nat) (size : Nat) (stack_size : Nat) (heap_size : Nat) :
    LoadResult :=
  if WamrRuntime.isInitialized rt = false then
    { state := { s with error_buf := snprintfBuf "WAMR runtime not initialized" },
      ok := false, trace := [] }
  else
    let t0 := unloadTrace s
    let s0 := unload s
    match eng.wasm_runtime_load wasm_bytes size with
    | Except.error e =>
      { state := { s0 with error_buf := snprintfBuf e }, ok := false,
        trace := t0 ++ [Event.engineLoad] }
    | Except.ok m =>
      match eng.wasm_runtime_instantiate m stack_size heap_size with
      | Except.error e =>
        { state := { s0 with error_buf := snprintfBuf e }, ok := false,
          trace := t0 ++ [Event.engineLoad, Event.unloadUnit m] }
      | Except.ok inst =>
        { state :=
            { s0 with
                module := some m
                module_inst := some inst
                stack_size_for_exec_env := stack_size
                loaded := true },
          ok := true, trace := t0 ++ [Event.engineLoad] }

/-- `WamrModule::callFunctionInternal(func_name, argc, argv)`: the shared
invocation primitive of the execution bridge. -/
def callFunctionInternal (eng : Engine) (s : ModuleState) (func_name : String)
    (argc : Nat) (argv : Option (List Nat)) : CallResult :=
  if s.loaded = false ∨ s.module_inst = none then
    { state := { s with error_buf := snprintfBuf "Module not loaded" },
      ok := false, trace := [], argvOut := argv }
  else
    match eng.wasm_runtime_create_exec_env (s.module_inst.getD 0)
        s.stack_size_for_exec_env with
    | none =>
      { state := { s with
          error_buf := snprintfBuf "Failed to create execution environment" },
        ok := false, trace := [], argvOut := argv }
    | some exec_env =>
      match eng.wasm_runtime_lookup_function (s.module_inst.getD 0) func_name with
      | none =>
        { state := { s with
            error_buf := snprintfBuf
              ("Function " ++ sq ++ func_name ++ sq ++ " not found") },
          ok := false,
          trace := [Event.createCtx exec_env, Event.lookupFn func_name,
                    Event.destroyCtx exec_env],
          argvOut := argv }
      | some func =>
        if (eng.wasm_runtime_call_wasm exec_env func argc (argv.getD [])).1
            = false then
          { state := { s with
              error_buf := snprintfBuf
                (match eng.wasm_runtime_get_exception (s.module_inst.getD 0) with
                 | some ex => "Exception: " ++ ex
                 | none => "Function call failed") },
            ok := false,
            trace := [Event.createCtx exec_env, Event.lookupFn func_name,
                      Event.engineCall func, Event.destroyCtx exec_env],
            argvOut := argv.map
              (fun _ => (eng.wasm_runtime_call_wasm exec_env func argc
                (argv.getD [])).2) }
        else
          { state := { s with
              last_result :=
                if 0 < argc ∧ argv.isSome then
                  (eng.wasm_runtime_call_wasm exec_env func argc
                    (argv.getD [])).2.headD 0
                else s.last_result },
            ok := true,
            trace := [Event.createCtx exec_env, Event.lookupFn func_name,
                      Event.engineCall func, Event.destroyCtx exec_env],
            argvOut := argv.map
              (fun _ => (eng.wasm_runtime_call_wasm exec_env func argc
                (argv.getD [])).2) }

/-- `WamrModule::callFunction(func_name, argc, argv)`: the safe path,
wrapping `callFunctionInternal` in a dedicated joined pthread. -/
def callFunction (penv : PthreadEnv) (eng : Engine) (s : ModuleState)
    (func_name : String) (argc : Nat) (argv : Option (List Nat)) : CallResult :=
  if penv.attrInitOk = false then
    { state := { s with
        error_buf := snprintfBuf "Failed to initialize pthread attributes" },
      ok := false, trace := [], argvOut := argv }
  else if penv.setStackSizeOk = false then
    { state := { s with
        error_buf := snprintfBuf "Failed to set pthread stack size" },
      ok := false, trace := [], argvOut := argv }
  else if penv.createOk = false then
    { state := { s with
        error_buf := snprintfBuf "Failed to create pthread for WASM execution" },
      ok := false, trace := [], argvOut := argv }
  else
    callFunctionInternal eng s func_name argc argv

/-- `WamrModule::callFunctionRaw(func_name, argc, argv)`: direct delegation
to `callFunctionInternal`. -/
def callFunctionRaw (eng : Engine) (s : ModuleState) (func_name : String)
    (argc : Nat) (argv : Option (List Nat)) : CallResult :=
  callFunctionInternal eng s func_name argc argv

/-- `WamrModule::getResult()`. -/
def getResult (s : ModuleState) : Nat := s.last_result

/-- `WamrModule::getError()`: `error_buf` when its first byte is non-NUL,
null otherwise. -/
def getError (s : ModuleState) : Option String :=
  if s.error_buf = "" then none else some s.error_buf

/-- `WamrModule::isLoaded()` from WAMR.h: `module_inst != nullptr`. -/
def isLoaded (s : ModuleState) : Bool := s.module_inst.isSome

end WamrModule

/-- Every execution context created in a trace is destroyed later in that
trace. -/
def ctxClosed : List Event → Bool
  | [] => true
  | Event.createCtx h :: rest =>
      decide (Event.destroyCtx h ∈ rest) && ctxClosed rest
  | _ :: rest => ctxClosed rest

/-- Controller-state invariant: the instance handle exists only when the
compiled unit does, and the `loaded` flag agrees with `isLoaded()`
(instance handle non-null). -/
def stateInv (s : ModuleState) : Prop :=
  (s.module_inst.isSome = true → s.module.isSome = true) ∧
  s.loaded = s.module_inst.isSome

-- ===========================================================================
-- Concrete fixtures (used by counterexamples and witnesses)
-- ===========================================================================

/-- A memory environment where PSRAM is unavailable, internal RAM succeeds
and the engine initializes. -/
def memEnvA : MemEnv :=
  { psramAlloc := fun _ => none
    internalAlloc := fun _ => some 3
    engineInitOk := true }

/-- An engine whose function lookup never succeeds; everything else
succeeds. -/
def engNoFn : Engine :=
  { wasm_runtime_load := fun _ _ => Except.ok 1
    wasm_runtime_instantiate := fun _ _ _ => Except.ok 2
    wasm_runtime_create_exec_env := fun _ _ => some 7
    wasm_runtime_lookup_function := fun _ _ => none
    wasm_runtime_call_wasm := fun _ _ _ argv => (true, argv)
    wasm_runtime_get_exception := fun _ => none }

/-- An engine where lookup and the call succeed, the call writing 42 into
output slot 0. -/
def engOk : Engine :=
  { wasm_runtime_load := fun _ _ => Except.ok 1
    wasm_runtime_instantiate := fun _ _ _ => Except.ok 2
    wasm_runtime_create_exec_env := fun _ _ => some 7
    wasm_runtime_lookup_function := fun _ _ => some 5
    wasm_runtime_call_wasm := fun _ _ _ argv => (true, 42 :: argv.tail)
    wasm_runtime_get_exception := fun _ => none }

/-- An engine whose instantiation step fails with diagnostic text. -/
def engInstFail : Engine :=
  { engOk with
      wasm_runtime_instantiate := fun _ _ _ => Except.error "instantiate: out of memory" }

/-- An engine whose execution-context creation always fails. -/
def engNoCtx : Engine :=
  { engOk with wasm_runtime_create_exec_env := fun _ _ => none }

/-- A loaded controller state (compiled unit 1, instance 2). -/
def sLoaded : ModuleState :=
  { module := some 1, module_inst := some 2, stack_size_for_exec_env := 4096,
    last_result := 0, loaded := true, error_buf := "" }

/-- A loaded controller state still holding a previous failure message in
its error buffer. -/
def sWithErr : ModuleState :=
  { sLoaded with error_buf := "previous failure" }

/-- A runtime state after a successful `begin()`. -/
def rtInit : RuntimeState :=
  { initialized := true, global_heap_buf := some 3, error_msg := none }

/-- A pthread environment in which every pthread operation succeeds. -/
def penvOk : PthreadEnv :=
  { attrInitOk := true, setStackSizeOk := true, createOk := true }

-- ===========================================================================
-- Claim theorems
-- ===========================================================================

/-- C4: on an already-initialized runtime, `begin(heapPoolSize)` with any
size (including one below the minimum) returns success, changes no state,
and performs no resource action. -/
theorem C4_begin_already_initialized (env : MemEnv) (r : RuntimeState) (n : Nat)
    (h : r.initialized = true) :
    WamrRuntime.begin env r n = { state := r, ok := true, trace := [] } := by
  simp [WamrRuntime.begin, h]

/-- Witness for C4: a second `begin` on the initialized state `rtInit`,
even with size 0, is a successful no-op. -/
theorem C4_begin_already_initialized_witness :
    rtInit.initialized = true ∧
    WamrRuntime.begin memEnvA rtInit 0 =
      { state := rtInit, ok := true, trace := [] } :=
  ⟨rfl, C4_begin_already_initialized memEnvA rtInit 0 rfl⟩

/-- C5: on an uninitialized runtime, `begin(heapPoolSize)` with
`heapPoolSize < WAMR_MIN_HEAP_SIZE` fails with the config error message,
leaves `isInitialized()` false and the heap-buffer field unchanged, and
touches no resource (empty action trace). -/
theorem C5_begin_heap_too_small (env : MemEnv) (r : RuntimeState) (n : Nat)
    (h0 : r.initialized = false) (h1 : n < WAMR_MIN_HEAP_SIZE) :
    (WamrRuntime.begin env r n).ok = false ∧
    WamrRuntime.isInitialized (WamrRuntime.begin env r n).state = false ∧
    (WamrRuntime.begin env r n).state.global_heap_buf = r.global_heap_buf ∧
    WamrRuntime.getError (WamrRuntime.begin env r n).state =
      some "Heap pool size too small (min 16KB)" ∧
    (WamrRuntime.begin env r n).trace = [] := by
  simp [WamrRuntime.begin, WamrRuntime.isInitialized, WamrRuntime.getError,
        h0, h1]

/-- Witness for C5: `begin(100)` on the pristine runtime state fails and
leaves the runtime uninitialized. -/
theorem C5_begin_heap_too_small_witness :
    WamrRuntime.initial.initialized = false ∧ 100 < WAMR_MIN_HEAP_SIZE ∧
    (WamrRuntime.begin memEnvA WamrRuntime.initial 100).ok = false ∧
    WamrRuntime.isInitialized
      (WamrRuntime.begin memEnvA WamrRuntime.initial 100).state = false ∧
    (WamrRuntime.begin memEnvA WamrRuntime.initial 100).trace = [] :=
  ⟨rfl, by decide,
   (C5_begin_heap_too_small memEnvA WamrRuntime.initial 100 rfl (by decide)).1,
   (C5_begin_heap_too_small memEnvA WamrRuntime.initial 100 rfl (by decide)).2.1,
   (C5_begin_heap_too_small memEnvA WamrRuntime.initial 100 rfl (by decide)).2.2.2.2⟩

/-- C6: `unload()` is idempotent — a second `unload` changes no state, any
state after `unload` reports no error, and `unload` on a freshly
constructed (never-loaded) controller changes nothing. -/
theorem C6_unload_idempotent (s : ModuleState) :
    WamrModule.unload (WamrModule.unload s) = WamrModule.unload s ∧
    WamrModule.getError (WamrModule.unload s) = none ∧
    WamrModule.unload WamrModule.construct = WamrModule.construct := by
  refine ⟨rfl, ?_, rfl⟩
  simp [WamrModule.getError, WamrModule.unload]

/-- C3: when instantiation fails during `load()` (after a successful
compile), `load()` returns failure, the compiled unit is released
(`wasm_runtime_unload` performed, `module` null afterwards), and the
controller is left not loaded (`module_inst` null, `isLoaded()` false,
`loaded` false). -/
theorem C3_instantiate_failure_releases_unit (eng : Engine) (rt : RuntimeState)
    (s : ModuleState) (bytes : List Nat) (size stack heap m : Nat) (e : String)
    (hrt : WamrRuntime.isInitialized rt = true)
    (hload : eng.wasm_runtime_load bytes size = Except.ok m)
    (hinst : eng.wasm_runtime_instantiate m stack heap = Except.error e) :
    (WamrModule.load eng rt s bytes size stack heap).ok = false ∧
    (WamrModule.load eng rt s bytes size stack heap).state.module = none ∧
    (WamrModule.load eng rt s bytes size stack heap).state.module_inst = none ∧
    (WamrModule.load eng rt s bytes size stack heap).state.loaded = false ∧
    WamrModule.isLoaded (WamrModule.load eng rt s bytes size stack heap).state
      = false ∧
    Event.unloadUnit m ∈ (WamrModule.load eng rt s bytes size stack heap).trace := by
  simp [WamrModule.load, hrt, hload, hinst, WamrModule.isLoaded,
        WamrModule.unload]

/-- Witness for C3: loading under `engInstFail` (instantiation rejected)
fails and leaves the controller not loaded, having released compiled
unit 1. -/
theorem C3_instantiate_failure_releases_unit_witness :
    WamrRuntime.isInitialized rtInit = true ∧
    engInstFail.wasm_runtime_load [0] 4 = Except.ok 1 ∧
    engInstFail.wasm_runtime_instantiate 1 8192 4096 =
      Except.error "instantiate: out of memory" ∧
    (WamrModule.load engInstFail rtInit WamrModule.construct [0] 4 8192 4096).ok
      = false ∧
    (WamrModule.load engInstFail rtInit WamrModule.construct [0] 4 8192 4096).state.module
      = none ∧
    Event.unloadUnit 1 ∈
      (WamrModule.load engInstFail rtInit WamrModule.construct [0] 4 8192 4096).trace :=
  ⟨rfl, rfl, rfl,
   (C3_instantiate_failure_releases_unit engInstFail rtInit WamrModule.construct
      [0] 4 8192 4096 1 "instantiate: out of memory" rfl rfl rfl).1,
   (C3_instantiate_failure_releases_unit engInstFail rtInit WamrModule.construct
      [0] 4 8192 4096 1 "instantiate: out of memory" rfl rfl rfl).2.1,
   (C3_instantiate_failure_releases_unit engInstFail rtInit WamrModule.construct
      [0] 4 8192 4096 1 "instantiate: out of memory" rfl rfl rfl).2.2.2.2.2⟩

/-- C8: every execution context created inside `callFunctionInternal` is
destroyed before the invocation returns, on every exit path: in the trace
of any invocation, each created context has a later destroy event. -/
theorem C8_exec_env_destroyed (eng : Engine) (s : ModuleState) (name : String)
    (argc : Nat) (argv : Option (List Nat)) :
    ctxClosed (WamrModule.callFunctionInternal eng s name argc argv).trace
      = true := by
  unfold WamrModule.callFunctionInternal
  by_cases hL : s.loaded = false ∨ s.module_inst = none
  · simp [hL, ctxClosed]
  · rw [if_neg hL]
    cases hE : eng.wasm_runtime_create_exec_env (s.module_inst.getD 0)
        s.stack_size_for_exec_env with
    | none => simp [hE, ctxClosed]
    | some exec_env =>
      cases hF : eng.wasm_runtime_lookup_function (s.module_inst.getD 0) name with
      | none => simp [hE, hF, ctxClosed]
      | some func =>
        simp only [hE, hF]
        split <;> simp [ctxClosed]

/-- C10: `callFunctionRaw` (and `callFunction`, whenever the pthread layer
itself works) on a controller with no loaded module fails with the
`Module not loaded` message, leaves the handles, the loaded flag and
`lastResult` unchanged, and attempts no engine action at all. -/
theorem C10_call_not_loaded (penv : PthreadEnv) (eng : Engine)
    (s : ModuleState) (name : String) (argc : Nat) (argv : Option (List Nat))
    (h : s.loaded = false ∨ s.module_inst = none)
    (hp1 : penv.attrInitOk = true) (hp2 : penv.setStackSizeOk = true)
    (hp3 : penv.createOk = true) :
    (WamrModule.callFunctionRaw eng s name argc argv).ok = false ∧
    WamrModule.getError (WamrModule.callFunctionRaw eng s name argc argv).state
      = some "Module not loaded" ∧
    (WamrModule.callFunctionRaw eng s name argc argv).state.module = s.module ∧
    (WamrModule.callFunctionRaw eng s name argc argv).state.module_inst
      = s.module_inst ∧
    (WamrModule.callFunctionRaw eng s name argc argv).state.loaded = s.loaded ∧
    (WamrModule.callFunctionRaw eng s name argc argv).state.last_result
      = s.last_result ∧
    (WamrModule.callFunctionRaw eng s name argc argv).trace = [] ∧
    WamrModule.callFunction penv eng s name argc argv
      = WamrModule.callFunctionRaw eng s name argc argv := by
  have hI : WamrModule.callFunctionInternal eng s name argc argv =
      { state := { s with error_buf := snprintfBuf "Module not loaded" },
        ok := false, trace := [], argvOut := argv } := by
    unfold WamrModule.callFunctionInternal
    rw [if_pos h]
  have hS : WamrModule.callFunction penv eng s name argc argv
      = WamrModule.callFunctionInternal eng s name argc argv := by
    unfold WamrModule.callFunction
    rw [hp1, hp2, hp3]
    simp
  refine ⟨?_, ?_, ?_, ?_, ?_, ?_, ?_, ?_⟩ <;>
    simp [WamrModule.callFunctionRaw, hI, hS, WamrModule.getError]
  decide

/-- Witness for C10: calling a never-loaded controller fails with the
`Module not loaded` message and changes no handle. -/
theorem C10_call_not_loaded_witness :
    (WamrModule.construct.loaded = false ∨
      WamrModule.construct.module_inst = none) ∧
    (WamrModule.callFunctionRaw engOk WamrModule.construct "f" 0 none).ok
      = false ∧
    WamrModule.getError
      (WamrModule.callFunctionRaw engOk WamrModule.construct "f" 0 none).state
      = some "Module not loaded" ∧
    (WamrModule.callFunctionRaw engOk WamrModule.construct "f" 0 none).trace
      = [] :=
  ⟨Or.inl rfl,
   (C10_call_not_loaded penvOk engOk WamrModule.construct "f" 0 none
      (Or.inl rfl) rfl rfl rfl).1,
   (C10_call_not_loaded penvOk engOk WamrModule.construct "f" 0 none
      (Or.inl rfl) rfl rfl rfl).2.1,
   (C10_call_not_loaded penvOk engOk WamrModule.construct "f" 0 none
      (Or.inl rfl) rfl rfl rfl).2.2.2.2.2.2.1⟩

/-- Helper: when every pthread operation succeeds, the safe path reduces to
the shared internal primitive. -/
theorem callFunction_pthread_ok (penv : PthreadEnv) (eng : Engine)
    (s : ModuleState) (name : String) (argc : Nat) (argv : Option (List Nat))
    (h1 : penv.attrInitOk = true) (h2 : penv.setStackSizeOk = true)
    (h3 : penv.createOk = true) :
    WamrModule.callFunction penv eng s name argc argv
      = WamrModule.callFunctionInternal eng s name argc argv := by
  unfold WamrModule.callFunction
  rw [h1, h2, h3]
  simp

/-- Helper: a successful safe-path call implies the pthread operations all
succeeded (each pthread failure returns false). -/
theorem callFunction_ok_pthread (penv : PthreadEnv) (eng : Engine)
    (s : ModuleState) (name : String) (argc : Nat) (argv : Option (List Nat))
    (hok : (WamrModule.callFunction penv eng s name argc argv).ok = true) :
    penv.attrInitOk = true ∧ penv.setStackSizeOk = true ∧
      penv.createOk = true := by
  by_cases h1 : penv.attrInitOk = false
  · unfold WamrModule.callFunction at hok
    rw [if_pos h1] at hok
    simp at hok
  · by_cases h2 : penv.setStackSizeOk = false
    · unfold WamrModule.callFunction at hok
      rw [if_neg h1, if_pos h2] at hok
      simp at hok
    · by_cases h3 : penv.createOk = false
      · unfold WamrModule.callFunction at hok
        rw [if_neg h1, if_neg h2, if_pos h3] at hok
        simp at hok
      · exact ⟨by simpa using h1, by simpa using h2, by simpa using h3⟩

/-- C7: after every successful `callFunction` with `argc > 0` and a
non-null `argv`, `getResult()` returns the same value as reading `argv[0]`
directly after the call (output slot 0 is cached as `lastResult`). -/
theorem C7_result_roundtrip (penv : PthreadEnv) (eng : Engine)
    (s : ModuleState) (name : String) (argc : Nat) (argv : Option (List Nat))
    (l : List Nat) (hargv : argv = some l) (hargc : 0 < argc)
    (hok : (WamrModule.callFunction penv eng s name argc argv).ok = true) :
    WamrModule.getResult
        (WamrModule.callFunction penv eng s name argc argv).state
      = ((WamrModule.callFunction penv eng s name argc argv).argvOut.getD
          []).headD 0 := by
  obtain ⟨h1, h2, h3⟩ := callFunction_ok_pthread penv eng s name argc argv hok
  rw [callFunction_pthread_ok penv eng s name argc argv h1 h2 h3] at hok ⊢
  subst hargv
  unfold WamrModule.callFunctionInternal at hok ⊢
  by_cases hL : s.loaded = false ∨ s.module_inst = none
  · rw [if_pos hL] at hok
    simp at hok
  · rw [if_neg hL] at hok ⊢
    cases hE : eng.wasm_runtime_create_exec_env (s.module_inst.getD 0)
        s.stack_size_for_exec_env with
    | none =>
      simp only [hE] at hok
      simp at hok
    | some exec_env =>
      cases hF : eng.wasm_runtime_lookup_function (s.module_inst.getD 0) name with
      | none =>
        simp only [hE, hF] at hok
        simp at hok
      | some func =>
        simp only [hE, hF] at hok ⊢
        by_cases hc : (eng.wasm_runtime_call_wasm exec_env func argc
            ((some l).getD [])).1 = false
        · rw [if_pos hc] at hok
          simp at hok
        · rw [if_neg hc] at hok ⊢
          simp [WamrModule.getResult, hargc]

/-- Witness for C7: a successful call of `f` with one slot under `engOk`
caches the engine-written slot 0 (42) as the result. -/
theorem C7_result_roundtrip_witness :
    (WamrModule.callFunction penvOk engOk sLoaded "f" 1 (some [5])).ok
      = true ∧
    WamrModule.getResult
        (WamrModule.callFunction penvOk engOk sLoaded "f" 1 (some [5])).state
      = ((WamrModule.callFunction penvOk engOk sLoaded "f" 1
          (some [5])).argvOut.getD []).headD 0 :=
  ⟨by decide,
   C7_result_roundtrip penvOk engOk sLoaded "f" 1 (some [5]) [5] rfl
     (by decide) (by decide)⟩

/-- C9: the controller-state invariant (instance only with compiled unit;
`loaded` flag agrees with `isLoaded()`, i.e. with instance-handle
presence) is preserved by construction, `load`, `callFunction`,
`callFunctionRaw`, `callFunctionInternal` and `unload` (the destructor
performs `unload`). -/
theorem C9_state_invariant (penv : PthreadEnv) (eng : Engine)
    (rt : RuntimeState) (s : ModuleState) (bytes : List Nat)
    (size stack heap : Nat) (name : String) (argc : Nat)
    (argv : Option (List Nat)) (h : stateInv s) :
    stateInv WamrModule.construct ∧
    stateInv (WamrModule.load eng rt s bytes size stack heap).state ∧
    stateInv (WamrModule.callFunction penv eng s name argc argv).state ∧
    stateInv (WamrModule.callFunctionRaw eng s name argc argv).state ∧
    stateInv (WamrModule.callFunctionInternal eng s name argc argv).state ∧
    stateInv (WamrModule.unload s) := by
  have hcall : ∀ (eng : Engine),
      stateInv (WamrModule.callFunctionInternal eng s name argc argv).state := by
    intro eng
    unfold WamrModule.callFunctionInternal
    by_cases hL : s.loaded = false ∨ s.module_inst = none
    · rw [if_pos hL]
      simpa [stateInv] using h
    · rw [if_neg hL]
      cases hE : eng.wasm_runtime_create_exec_env (s.module_inst.getD 0)
          s.stack_size_for_exec_env with
      | none => simpa [hE, stateInv] using h
      | some exec_env =>
        cases hF : eng.wasm_runtime_lookup_function (s.module_inst.getD 0)
            name with
        | none => simpa [hE, hF, stateInv] using h
        | some func =>
          simp only [hE, hF]
          split <;> simpa [stateInv] using h
  have hsafe : stateInv (WamrModule.callFunction penv eng s name argc argv).state := by
    unfold WamrModule.callFunction
    split
    · simpa [stateInv] using h
    · split
      · simpa [stateInv] using h
      · split
        · simpa [stateInv] using h
        · exact hcall eng
  have hunload : stateInv (WamrModule.unload s) := by
    simp [stateInv, WamrModule.unload]
  have hload : stateInv (WamrModule.load eng rt s bytes size stack heap).state := by
    unfold WamrModule.load
    by_cases hrt : WamrRuntime.isInitialized rt = false
    · rw [if_pos hrt]
      simpa [stateInv] using h
    · rw [if_neg hrt]
      cases hl : eng.wasm_runtime_load bytes size with
      | error e => simp [hl, stateInv, WamrModule.unload]
      | ok m =>
        cases hi : eng.wasm_runtime_instantiate m stack heap with
        | error e => simp [hl, hi, stateInv, WamrModule.unload]
        | ok inst => simp [hl, hi, stateInv, WamrModule.unload]
  exact ⟨by simp [stateInv, WamrModule.construct],
         hload, hsafe, hcall eng, hcall eng, hunload⟩

/-- Witness for C9: the invariant holds of the loaded fixture state and is
kept by `unload` on it. -/
theorem C9_state_invariant_witness :
    stateInv sLoaded ∧ stateInv (WamrModule.unload sLoaded) ∧
    stateInv (WamrModule.callFunctionRaw engOk sLoaded "f" 1 (some [5])).state :=
  ⟨by exact ⟨fun _ => rfl, rfl⟩,
   (C9_state_invariant penvOk engOk rtInit sLoaded [0] 4 8192 4096 "f" 1
      (some [5]) ⟨fun _ => rfl, rfl⟩).2.2.2.2.2,
   (C9_state_invariant penvOk engOk rtInit sLoaded [0] 4 8192 4096 "f" 1
      (some [5]) ⟨fun _ => rfl, rfl⟩).2.2.2.1⟩

/-- C1 counterexample: with a loaded module and an engine in which the
exported name does not exist (`engNoFn`), the call does fail with the
function-not-found error naming the symbol — but an execution context
(handle 7) **was** created during the invocation, contradicting the
claim that the lookup happens first and that a not-found failure occurs
without a context ever having been created. -/
theorem C1_counterexample :
    (WamrModule.callFunctionRaw engNoFn sLoaded "foo" 1 (some [0])).ok
      = false ∧
    WamrModule.getError
        (WamrModule.callFunctionRaw engNoFn sLoaded "foo" 1 (some [0])).state
      = some ("Function " ++ sq ++ "foo" ++ sq ++ " not found") ∧
    Event.createCtx 7 ∈
      (WamrModule.callFunctionRaw engNoFn sLoaded "foo" 1 (some [0])).trace := by
  refine ⟨rfl, ?_, ?_⟩ <;> decide

/-- C1 (amended): on a loaded controller, `callFunctionInternal` creates
the execution context first and looks the function up only afterwards.
When context creation fails, the call fails with the
context-creation-failure error before any lookup is attempted (empty
trace, in particular no lookup event).  When context creation succeeds
and the named function does not exist, the call fails with the
function-not-found error naming the missing symbol, with the
already-created execution context created before the lookup and destroyed
before returning (trace: create, lookup, destroy). -/
theorem C1_amended_create_env_then_lookup (eng : Engine) (s : ModuleState)
    (name : String) (argc : Nat) (argv : Option (List Nat)) (i : Nat)
    (hl : s.loaded = true) (hi : s.module_inst = some i) :
    (eng.wasm_runtime_create_exec_env i s.stack_size_for_exec_env = none →
      (WamrModule.callFunctionInternal eng s name argc argv).ok = false ∧
      (WamrModule.callFunctionInternal eng s name argc argv).state.error_buf
        = snprintfBuf "Failed to create execution environment" ∧
      (WamrModule.callFunctionInternal eng s name argc argv).trace = [] ∧
      Event.lookupFn name ∉
        (WamrModule.callFunctionInternal eng s name argc argv).trace) ∧
    (∀ e, eng.wasm_runtime_create_exec_env i s.stack_size_for_exec_env
        = some e →
      eng.wasm_runtime_lookup_function i name = none →
      (WamrModule.callFunctionInternal eng s name argc argv).ok = false ∧
      (WamrModule.callFunctionInternal eng s name argc argv).state.error_buf
        = snprintfBuf ("Function " ++ sq ++ name ++ sq ++ " not found") ∧
      (WamrModule.callFunctionInternal eng s name argc argv).trace
        = [Event.createCtx e, Event.lookupFn name, Event.destroyCtx e]) := by
  have hL : ¬ (s.loaded = false ∨ s.module_inst = none) := by simp [hl, hi]
  constructor
  · intro he
    unfold WamrModule.callFunctionInternal
    rw [if_neg hL]
    simp [hi, he]
  · intro e he hf
    unfold WamrModule.callFunctionInternal
    rw [if_neg hL]
    simp [hi, he, hf]

/-- Witness for the amended C1: under `engNoCtx` context creation fails and
the call fails with an empty trace (no lookup attempted); under `engNoFn`
the not-found failure happens with the context (7) created before the
lookup and destroyed afterwards. -/
theorem C1_amended_create_env_then_lookup_witness :
    sLoaded.loaded = true ∧ sLoaded.module_inst = some 2 ∧
    (WamrModule.callFunctionInternal engNoCtx sLoaded "foo" 1 (some [0])).ok
      = false ∧
    (WamrModule.callFunctionInternal engNoCtx sLoaded "foo" 1 (some [0])).trace
      = [] ∧
    (WamrModule.callFunctionInternal engNoFn sLoaded "foo" 1 (some [0])).ok
      = false ∧
    (WamrModule.callFunctionInternal engNoFn sLoaded "foo" 1 (some [0])).trace
      = [Event.createCtx 7, Event.lookupFn "foo", Event.destroyCtx 7] :=
  ⟨rfl, rfl,
   ((C1_amended_create_env_then_lookup engNoCtx sLoaded "foo" 1 (some [0]) 2
      rfl rfl).1 rfl).1,
   ((C1_amended_create_env_then_lookup engNoCtx sLoaded "foo" 1 (some [0]) 2
      rfl rfl).1 rfl).2.2.1,
   ((C1_amended_create_env_then_lookup engNoFn sLoaded "foo" 1 (some [0]) 2
      rfl rfl).2 7 rfl rfl).1,
   ((C1_amended_create_env_then_lookup engNoFn sLoaded "foo" 1 (some [0]) 2
      rfl rfl).2 7 rfl rfl).2.2⟩

/-- Helper: a successful `callFunctionInternal` leaves the error buffer
exactly as it was (no clearing on success). -/
theorem callFunctionInternal_ok_error_buf (eng : Engine) (s : ModuleState)
    (name : String) (argc : Nat) (argv : Option (List Nat))
    (hk : (WamrModule.callFunctionInternal eng s name argc argv).ok = true) :
    (WamrModule.callFunctionInternal eng s name argc argv).state.error_buf
      = s.error_buf := by
  unfold WamrModule.callFunctionInternal at hk ⊢
  by_cases hL : s.loaded = false ∨ s.module_inst = none
  · rw [if_pos hL] at hk
    simp at hk
  · rw [if_neg hL] at hk ⊢
    cases hE : eng.wasm_runtime_create_exec_env (s.module_inst.getD 0)
        s.stack_size_for_exec_env with
    | none =>
      simp only [hE] at hk
      simp at hk
    | some exec_env =>
      cases hF : eng.wasm_runtime_lookup_function (s.module_inst.getD 0)
          name with
      | none =>
        simp only [hE, hF] at hk
        simp at hk
      | some func =>
        simp only [hE, hF] at hk ⊢
        by_cases hc : (eng.wasm_runtime_call_wasm exec_env func argc
            (argv.getD [])).1 = false
        · rw [if_pos hc] at hk
          simp at hk
        · rw [if_neg hc]

/-- C2 counterexample: a controller still holding a previous failure
message performs a fully successful `callFunctionRaw`, yet `getError()`
still returns the old message — successful calls do not clear the error
buffer, contradicting the claim. -/
theorem C2_counterexample :
    WamrModule.getError sWithErr = some "previous failure" ∧
    (WamrModule.callFunctionRaw engOk sWithErr "f" 1 (some [5])).ok = true ∧
    WamrModule.getError
        (WamrModule.callFunctionRaw engOk sWithErr "f" 1 (some [5])).state
      = some "previous failure" := by
  refine ⟨?_, rfl, ?_⟩ <;> decide

/-- C2 (amended): the error buffer is cleared by `unload()` and by a
successful `load()` (through its implicit unload), but a successful
`callFunctionInternal` / `callFunction` leaves the error buffer exactly
unchanged (it is not cleared by successful calls). -/
theorem C2_amended_error_buffer_clearing (s : ModuleState) (eng : Engine)
    (rt : RuntimeState) (bytes : List Nat) (size stack heap : Nat)
    (penv : PthreadEnv) (name : String) (argc : Nat)
    (argv : Option (List Nat)) :
    WamrModule.getError (WamrModule.unload s) = none ∧
    ((WamrModule.load eng rt s bytes size stack heap).ok = true →
      WamrModule.getError
        (WamrModule.load eng rt s bytes size stack heap).state = none) ∧
    ((WamrModule.callFunctionInternal eng s name argc argv).ok = true →
      (WamrModule.callFunctionInternal eng s name argc argv).state.error_buf
        = s.error_buf) ∧
    ((WamrModule.callFunction penv eng s name argc argv).ok = true →
      (WamrModule.callFunction penv eng s name argc argv).state.error_buf
        = s.error_buf) := by
  refine ⟨by simp [WamrModule.getError, WamrModule.unload], ?_, ?_, ?_⟩
  · intro hk
    unfold WamrModule.load at hk ⊢
    by_cases hrt : WamrRuntime.isInitialized rt = false
    · rw [if_pos hrt] at hk
      simp at hk
    · rw [if_neg hrt] at hk ⊢
      cases hl : eng.wasm_runtime_load bytes size with
      | error e =>
        simp only [hl] at hk
        simp at hk
      | ok m =>
        cases hi : eng.wasm_runtime_instantiate m stack heap with
        | error e =>
          simp only [hl, hi] at hk
          simp at hk
        | ok inst =>
          simp [hl, hi, WamrModule.getError, WamrModule.unload]
  · exact callFunctionInternal_ok_error_buf eng s name argc argv
  · intro hk
    obtain ⟨h1, h2, h3⟩ := callFunction_ok_pthread penv eng s name argc argv hk
    rw [callFunction_pthread_ok penv eng s name argc argv h1 h2 h3] at hk ⊢
    exact callFunctionInternal_ok_error_buf eng s name argc argv hk

/-- Witness for the amended C2: unloading the error-holding fixture clears
the buffer; a successful call on it leaves the old message in place. -/
theorem C2_amended_error_buffer_clearing_witness :
    WamrModule.getError (WamrModule.unload sWithErr) = none ∧
    (WamrModule.callFunctionInternal engOk sWithErr "f" 1 (some [5])).ok
      = true ∧
    (WamrModule.callFunctionInternal engOk sWithErr "f" 1
        (some [5])).state.error_buf = sWithErr.error_buf :=
  ⟨(C2_amended_error_buffer_clearing sWithErr engOk rtInit [0] 4 8192 4096
      penvOk "f" 1 (some [5])).1,
   by decide,
   (C2_amended_error_buffer_clearing sWithErr engOk rtInit [0] 4 8192 4096
      penvOk "f" 1 (some [5])).2.2.1 (by decide)⟩

end WamrEsp32
